import Mathlib

/-!
# Time-based transmission for real-time publish (`plugins/ua_pubsub_realtime_etf.c`)

A shallow embedding of the transmission-time bookkeeping, the timed send and the
error-queue handling of `ua_pubsub_realtime_etf.c`, followed by theorems about it.

Conventions of the embedding.

* The process-wide variables of the file are the fields of `Globals`; a function that
  reads or writes them takes a `Globals` and returns the updated one.
* The operating system is an oracle: `Env` holds, for one call of an entry point, what
  `clock_gettime`, `sendmsg`, `poll` and `recvmsg` answer if they are called.  What the
  call really does on the socket and on the log is returned as a list of `Effect`s, in
  program order.
* `time_t`, `long`, `ssize_t` and `int` values are `Int`.  Unsigned arithmetic and the
  explicit casts are written with their wrap-around (`toUInt64`, `toInt32`, `toSizeT`,
  `% 2 ^ 64`).  The increment of the seconds field in `nanoSecondFieldConversion` is the
  one of a signed 64-bit `time_t`: past `2 ^ 63 - 1` it wraps to `-2 ^ 63` (`toInt64`).
  The sums on the nanoseconds field (`CYCLE_TIME + qbv_offset`, `tv_nsec += CYCLE_TIME`,
  `tv_nsec -= SECONDS`) are exact; from the initial state their operands stay below
  `2 ^ 31`.
* Macros that the file takes from headers which are not part of the sources at hand are
  the fields of `Consts`; every function that uses one takes a `Consts`.
-/

namespace RealtimeEtf

/-! ## Machine integers -/

/-- Conversion to `UA_UInt64` / `__u64` (value modulo `2 ^ 64`). -/
def toUInt64 (x : Int) : Nat := (x % 2 ^ 64).toNat

/-- Conversion to `size_t` (64 bit). -/
def toSizeT (x : Int) : Nat := (x % 2 ^ 64).toNat

/-- Conversion to `UA_Int32` / `int` (two's complement value of the low 32 bits). -/
def toInt32 (x : Int) : Int := (x + 2 ^ 31) % 2 ^ 32 - 2 ^ 31

/-- Value of a signed 64-bit `time_t` result (two's complement value of the low 64 bits). -/
def toInt64 (x : Int) : Int := (x + 2 ^ 63) % 2 ^ 64 - 2 ^ 63

/-! ## Macros of the file -/

/-- Macro `#define MICRO_SECONDS 1000`. -/
def MICRO_SECONDS : Int := 1000

/-- Macro `#define SECONDS 1000 * 1000 * 1000`.  The expansion is not parenthesised; at
each of its uses (`SECONDS -1`, `tv_nsec -= SECONDS`, `(UA_UInt64)tv_sec * SECONDS`, the
last one written out in the entry points) the value is the one of the product. -/
def SECONDS : Int := 1000 * 1000 * 1000

/-- Macro `#define CYCLE_TIME 250 * 1000`. -/
def CYCLE_TIME : Int := 250 * 1000

/-- Macro `#define QBV_OFFSET 25`. -/
def QBV_OFFSET : Int := 25

/-- Macro `#define SECONDS_INCREMENT 1`. -/
def SECONDS_INCREMENT : Int := 1

/-- Macro `#define FAILURE_EXIT -1`. -/
def FAILURE_EXIT : Int := -1

/-- Macro `#define SHIFT_32BITS 32`. -/
def SHIFT_32BITS : Nat := 32

/-- The variable `static UA_Int32 txTimeEnable = 1;`, which the file never assigns. -/
def txTimeEnable : Int := 1

/-- The flag `POLLERR` of `<poll.h>` (Linux: `0x008`). -/
def POLLERR : Nat := 8

/-- Macros used by the file and declared in headers outside the sources at hand
(`pubsub_realtime_etf.h`, the status codes of open62541). -/
structure Consts where
  SOCKET_EE_ORIGIN_TRANSMISSION_TIME : Nat
  SOCKET_EE_CODE_TRANSMISSION_TIME_INVALID_PARAM : Nat
  SOCKET_EE_CODE_TRANSMISSION_TIME_MISSED : Nat
  UA_STATUSCODE_GOOD : Nat
  UA_STATUSCODE_BADINTERNALERROR : Nat
  deriving DecidableEq, Repr

/-- One assignment of these macros, the one of open62541 and of the Linux error-queue
interface (`SO_EE_ORIGIN_TXTIME = 6`, `SO_EE_CODE_TXTIME_INVALID_PARAM = 1`,
`SO_EE_CODE_TXTIME_MISSED = 2`, `UA_STATUSCODE_GOOD = 0x00000000`,
`UA_STATUSCODE_BADINTERNALERROR = 0x80020000`); it is used where the code is evaluated on
concrete inputs. -/
def linuxConsts : Consts := ⟨6, 1, 2, 0, 0x80020000⟩

/-! ## Data -/

/-- The type `struct timespec`. -/
structure timespec where
  tv_sec : Int
  tv_nsec : Int
  deriving DecidableEq, Repr

/-- The type `struct sock_extended_err` of `<linux/errqueue.h>`; `ee_info` and `ee_data` are
`__u32`, `ee_origin` and `ee_code` are `__u8`. -/
structure sock_extended_err where
  ee_errno : Nat
  ee_origin : Nat
  ee_type : Nat
  ee_code : Nat
  ee_pad : Nat
  ee_info : Nat
  ee_data : Nat
  deriving DecidableEq, Repr

/-- What `recvmsg(fd, &messageError, MSG_ERRQUEUE)` answers: its return value and the
control records that `CMSG_FIRSTHDR` / `CMSG_NXTHDR` then enumerate, each one as the
`sock_extended_err` that `CMSG_DATA` is cast to. -/
structure RecvMsg where
  ret : Int
  control : List sock_extended_err
  deriving DecidableEq, Repr

/-- What a call does on the socket and on the log. -/
inductive Effect where
  | sendmsg (iov_len : Nat) (scm_txtime : Option Nat)
  | printf_sendmessage_failed
  | poll
  | recvmsg
  | log_error_recvmsg_failed
  | log_info_invalid_params (timeStamp : Nat)
  | log_info_missed_deadline (timeStamp : Nat)
  deriving DecidableEq, Repr

/-- The global variables of the file. -/
structure Globals where
  nextCycleStartTime : timespec
  firstPacket : Bool
  dataCount : Int
  errorCount : Int
  txtime : Nat
  qbv_offset : Int
  deriving DecidableEq, Repr

/-- The globals at program start: `firstPacket = UA_TRUE`,
`qbv_offset = (QBV_OFFSET * MICRO_SECONDS)`, everything else zero-initialised. -/
def initGlobals : Globals :=
  { nextCycleStartTime := ⟨0, 0⟩
    firstPacket := true
    dataCount := 0
    errorCount := 0
    txtime := 0
    qbv_offset := QBV_OFFSET * MICRO_SECONDS }

/-- The answers of the operating system during one call of an entry point. -/
structure Env where
  clock : timespec
  sendmsg_ret : Int
  poll_ret : Int
  revents : Nat
  recv : RecvMsg
  deriving DecidableEq, Repr

/-- Result of an entry point: the returned `UA_StatusCode`, the globals after the call
and what the call did. -/
structure Outcome where
  status : Nat
  globals : Globals
  effects : List Effect
  deriving DecidableEq, Repr

/-! ## Functions of the file -/

/-- Function `sendWithTxTime`: builds the message (one `iovec` of `(size_t)length` bytes and,
as `txTimeEnable` is set, one `SCM_TXTIME` control record holding `transmission_time`),
calls `sendmsg` and returns its count. -/
def sendWithTxTime (length : Int) (transmission_time : Nat) (sendmsg_ret : Int) :
    Int × List Effect :=
  let iov_len := toSizeT length
  let control : Option Nat := if txTimeEnable ≠ 0 then some transmission_time else none
  let msgCount := sendmsg_ret
  if msgCount < 1 then
    (msgCount, [Effect.sendmsg iov_len control, Effect.printf_sendmessage_failed])
  else
    (msgCount, [Effect.sendmsg iov_len control])

/-- The `while (controlErrorMsg != NULL)` loop of `sockErrorQueueProcess` over the
control records, with the `return UA_STATUSCODE_GOOD` that follows it. -/
def sockErrorQueueProcess_loop (c : Consts) : List sock_extended_err → Int × List Effect
  | [] => (toInt32 c.UA_STATUSCODE_GOOD, [])
  | sockErrorQueue :: rest =>
    if sockErrorQueue.ee_origin = c.SOCKET_EE_ORIGIN_TRANSMISSION_TIME then
      let timeStamp : Nat :=
        ((sockErrorQueue.ee_data <<< SHIFT_32BITS) % 2 ^ 64 + sockErrorQueue.ee_info) % 2 ^ 64
      if sockErrorQueue.ee_code = c.SOCKET_EE_CODE_TRANSMISSION_TIME_INVALID_PARAM then
        (0, [Effect.log_info_invalid_params timeStamp])
      else if sockErrorQueue.ee_code = c.SOCKET_EE_CODE_TRANSMISSION_TIME_MISSED then
        (0, [Effect.log_info_missed_deadline timeStamp])
      else
        (-1, [])
    else
      sockErrorQueueProcess_loop c rest

/-- Function `sockErrorQueueProcess`: the receive on the error queue, then the loop over
the control records. -/
def sockErrorQueueProcess (c : Consts) (r : RecvMsg) : Int × List Effect :=
  if r.ret = FAILURE_EXIT then
    (FAILURE_EXIT, [Effect.recvmsg, Effect.log_error_recvmsg_failed])
  else
    ((sockErrorQueueProcess_loop c r.control).1,
      Effect.recvmsg :: (sockErrorQueueProcess_loop c r.control).2)

/-- Function `nanoSecondFieldConversion`: the `while` loop that moves whole seconds from
the nanoseconds field to the seconds field.  The seconds field is a signed 64-bit `time_t`,
so `tv_sec += SECONDS_INCREMENT` wraps at `2 ^ 63 - 1`. -/
def nanoSecondFieldConversion (timeSpecValue : timespec) : timespec :=
  if timeSpecValue.tv_nsec > SECONDS - 1 then
    nanoSecondFieldConversion
      ⟨toInt64 (timeSpecValue.tv_sec + SECONDS_INCREMENT), timeSpecValue.tv_nsec - SECONDS⟩
  else
    timeSpecValue
termination_by timeSpecValue.tv_nsec.toNat
decreasing_by
  simp only [SECONDS] at *
  omega

/-- Function `txtimecalc_udp`; `buf_length` is `buf->length` (a `size_t`). -/
def txtimecalc_udp (c : Consts) (g : Globals) (env : Env) (buf_length : Nat) : Outcome :=
  let g1 : Globals :=
    if g.firstPacket = true then
      { g with
        nextCycleStartTime := ⟨env.clock.tv_sec, CYCLE_TIME + g.qbv_offset⟩
        firstPacket := false }
    else
      { g with
        nextCycleStartTime := nanoSecondFieldConversion
          ⟨g.nextCycleStartTime.tv_sec, g.nextCycleStartTime.tv_nsec + CYCLE_TIME⟩ }
  let g2 : Globals :=
    { g1 with
      txtime := (toUInt64 g1.nextCycleStartTime.tv_sec * 1000 * 1000 * 1000
        + toUInt64 g1.nextCycleStartTime.tv_nsec) % 2 ^ 64 }
  if g2.errorCount = 0 then
    let sent := sendWithTxTime (toInt32 buf_length) g2.txtime env.sendmsg_ret
    let g3 : Globals := { g2 with dataCount := sent.1 }
    if g3.dataCount ≠ toInt32 buf_length then
      ⟨c.UA_STATUSCODE_BADINTERNALERROR, g3, sent.2⟩
    else if env.poll_ret = 1 ∧ env.revents &&& POLLERR ≠ 0 then
      if (sockErrorQueueProcess c env.recv).1 = 0 then
        ⟨c.UA_STATUSCODE_BADINTERNALERROR, g3,
          sent.2 ++ Effect.poll :: (sockErrorQueueProcess c env.recv).2⟩
      else
        ⟨c.UA_STATUSCODE_GOOD, g3,
          sent.2 ++ Effect.poll :: (sockErrorQueueProcess c env.recv).2⟩
    else
      ⟨c.UA_STATUSCODE_GOOD, g3, sent.2 ++ [Effect.poll]⟩
  else
    ⟨c.UA_STATUSCODE_GOOD, g2, []⟩

/-- Function `txtimecalc_ethernet`; `lenBuf` is an `int`. -/
def txtimecalc_ethernet (c : Consts) (g : Globals) (env : Env) (lenBuf : Int) : Outcome :=
  let g1 : Globals :=
    if g.firstPacket = true then
      { g with
        nextCycleStartTime := ⟨env.clock.tv_sec, CYCLE_TIME + g.qbv_offset⟩
        firstPacket := false }
    else
      { g with
        nextCycleStartTime := nanoSecondFieldConversion
          ⟨g.nextCycleStartTime.tv_sec, g.nextCycleStartTime.tv_nsec + CYCLE_TIME⟩ }
  let g2 : Globals :=
    { g1 with
      txtime := (toUInt64 g1.nextCycleStartTime.tv_sec * 1000 * 1000 * 1000
        + toUInt64 g1.nextCycleStartTime.tv_nsec) % 2 ^ 64 }
  if g2.errorCount = 0 then
    let sent := sendWithTxTime (toInt32 lenBuf) g2.txtime env.sendmsg_ret
    let g3 : Globals := { g2 with dataCount := sent.1 }
    if g3.dataCount ≠ toInt32 lenBuf then
      ⟨c.UA_STATUSCODE_BADINTERNALERROR, g3, sent.2⟩
    else if env.poll_ret = 1 ∧ env.revents &&& POLLERR ≠ 0 then
      if (sockErrorQueueProcess c env.recv).1 = 0 then
        ⟨c.UA_STATUSCODE_BADINTERNALERROR, g3,
          sent.2 ++ Effect.poll :: (sockErrorQueueProcess c env.recv).2⟩
      else
        ⟨c.UA_STATUSCODE_GOOD, g3,
          sent.2 ++ Effect.poll :: (sockErrorQueueProcess c env.recv).2⟩
    else
      ⟨c.UA_STATUSCODE_GOOD, g3, sent.2 ++ [Effect.poll]⟩
  else
    ⟨c.UA_STATUSCODE_GOOD, g2, []⟩

/-! ## Sequences of calls -/

/-- One call of an entry point, with the answers of the operating system during it. -/
inductive Call where
  | udp (env : Env) (buf_length : Nat)
  | ethernet (env : Env) (lenBuf : Int)
  deriving DecidableEq, Repr

/-- The clock value that `clock_gettime` stores if this call reads the clock. -/
def Call.clock : Call → timespec
  | Call.udp env _ => env.clock
  | Call.ethernet env _ => env.clock

/-- The answers of the operating system during this call. -/
def Call.env : Call → Env
  | Call.udp env _ => env
  | Call.ethernet env _ => env

/-- The payload length the caller passes: `buf->length`, respectively `lenBuf`. -/
def Call.length : Call → Int
  | Call.udp _ buf_length => buf_length
  | Call.ethernet _ lenBuf => lenBuf

/-- Runs one call. -/
def Call.exec (c : Consts) (g : Globals) : Call → Outcome
  | Call.udp env buf_length => txtimecalc_udp c g env buf_length
  | Call.ethernet env lenBuf => txtimecalc_ethernet c g env lenBuf

/-- Runs the calls one after the other and returns the globals after the last one. -/
def runCalls (c : Consts) (g : Globals) : List Call → Globals
  | [] => g
  | call :: rest => runCalls c (call.exec c g).globals rest

/-! ## The cycle state after one call -/

theorem exec_firstPacket (c : Consts) (g : Globals) (call : Call) :
    (call.exec c g).globals.firstPacket = false := by
  cases call <;> simp only [Call.exec, txtimecalc_udp, txtimecalc_ethernet] <;>
    split_ifs <;> simp_all

theorem exec_errorCount (c : Consts) (g : Globals) (call : Call) :
    (call.exec c g).globals.errorCount = g.errorCount := by
  cases call <;> simp only [Call.exec, txtimecalc_udp, txtimecalc_ethernet] <;>
    split_ifs <;> simp_all

theorem exec_qbv_offset (c : Consts) (g : Globals) (call : Call) :
    (call.exec c g).globals.qbv_offset = g.qbv_offset := by
  cases call <;> simp only [Call.exec, txtimecalc_udp, txtimecalc_ethernet] <;>
    split_ifs <;> simp_all

theorem exec_next_first (c : Consts) (g : Globals) (call : Call)
    (h : g.firstPacket = true) :
    (call.exec c g).globals.nextCycleStartTime
      = ⟨call.clock.tv_sec, CYCLE_TIME + g.qbv_offset⟩ := by
  cases call <;> simp only [Call.exec, Call.clock, txtimecalc_udp, txtimecalc_ethernet] <;>
    split_ifs <;> simp_all

theorem exec_next_later (c : Consts) (g : Globals) (call : Call)
    (h : g.firstPacket = false) :
    (call.exec c g).globals.nextCycleStartTime
      = nanoSecondFieldConversion
          ⟨g.nextCycleStartTime.tv_sec, g.nextCycleStartTime.tv_nsec + CYCLE_TIME⟩ := by
  cases call <;> simp only [Call.exec, Call.clock, txtimecalc_udp, txtimecalc_ethernet] <;>
    split_ifs <;> simp_all

theorem exec_txtime (c : Consts) (g : Globals) (call : Call) :
    (call.exec c g).globals.txtime
      = (toUInt64 (call.exec c g).globals.nextCycleStartTime.tv_sec * 1000 * 1000 * 1000
          + toUInt64 (call.exec c g).globals.nextCycleStartTime.tv_nsec) % 2 ^ 64 := by
  cases call <;> simp only [Call.exec, Call.clock, txtimecalc_udp, txtimecalc_ethernet] <;>
    split_ifs <;> simp_all

/-! ## Normalisation of the nanoseconds field -/

theorem nanoSecondFieldConversion_small (s n : Int) (h : n ≤ 999999999) :
    nanoSecondFieldConversion ⟨s, n⟩ = ⟨s, n⟩ := by
  rw [nanoSecondFieldConversion]
  have : ¬ (n > SECONDS - 1) := by
    simp only [SECONDS]
    omega
  simp [this]

theorem nanoSecondFieldConversion_step (s n : Int) (h : n > 999999999) :
    nanoSecondFieldConversion ⟨s, n⟩
      = nanoSecondFieldConversion ⟨toInt64 (s + 1), n - 1000000000⟩ := by
  rw [nanoSecondFieldConversion]
  have : n > SECONDS - 1 := by
    simp only [SECONDS]
    omega
  simp only [this, if_true]
  simp [SECONDS, SECONDS_INCREMENT]

theorem toInt64_of_fits (x : Int) (h₁ : -9223372036854775808 ≤ x)
    (h₂ : x ≤ 9223372036854775807) : toInt64 x = x := by
  simp only [toInt64]
  norm_num
  omega

/-- The nanoseconds left by the loop, whatever the seconds field does. -/
theorem nanoSecondFieldConversion_nsec_bounded (k : Nat) :
    ∀ s n : Int, 0 ≤ n → n < (k + 1) * 1000000000 →
      (nanoSecondFieldConversion ⟨s, n⟩).tv_nsec = n % 1000000000 := by
  induction k with
  | zero =>
    intro s n h0 h1
    rw [nanoSecondFieldConversion_small s n (by omega)]
    simp only
    omega
  | succ k ih =>
    intro s n h0 h1
    by_cases hn : n ≤ 999999999
    · rw [nanoSecondFieldConversion_small s n hn]
      simp only
      omega
    · rw [nanoSecondFieldConversion_step s n (by omega)]
      rw [ih _ (n - 1000000000) (by omega) (by push_cast at h1 ⊢; omega)]
      omega

theorem nanoSecondFieldConversion_nsec (s n : Int) (h : 0 ≤ n) :
    (nanoSecondFieldConversion ⟨s, n⟩).tv_nsec = n % 1000000000 := by
  apply nanoSecondFieldConversion_nsec_bounded n.toNat s n h
  have : (n.toNat : Int) = n := Int.toNat_of_nonneg h
  omega

theorem nanoSecondFieldConversion_bounded (k : Nat) :
    ∀ s n : Int, 0 ≤ n → n < (k + 1) * 1000000000 →
      -9223372036854775808 ≤ s → s + n / 1000000000 ≤ 9223372036854775807 →
      nanoSecondFieldConversion ⟨s, n⟩ = ⟨s + n / 1000000000, n % 1000000000⟩ := by
  induction k with
  | zero =>
    intro s n h0 h1 _ _
    rw [nanoSecondFieldConversion_small s n (by omega)]
    congr 1 <;> omega
  | succ k ih =>
    intro s n h0 h1 hmin hmax
    by_cases hn : n ≤ 999999999
    · rw [nanoSecondFieldConversion_small s n hn]
      congr 1 <;> omega
    · rw [nanoSecondFieldConversion_step s n (by omega),
        toInt64_of_fits (s + 1) (by omega) (by omega)]
      rw [ih (s + 1) (n - 1000000000) (by omega) (by push_cast at h1 ⊢; omega)
        (by omega) (by omega)]
      congr 1 <;> omega

/-- The loop computes quotient and remainder whenever the resulting seconds value is
representable. -/
theorem nanoSecondFieldConversion_eq (s n : Int) (h : 0 ≤ n)
    (hmin : -9223372036854775808 ≤ s) (hmax : s + n / 1000000000 ≤ 9223372036854775807) :
    nanoSecondFieldConversion ⟨s, n⟩ = ⟨s + n / 1000000000, n % 1000000000⟩ := by
  apply nanoSecondFieldConversion_bounded n.toNat s n h _ hmin hmax
  have : (n.toNat : Int) = n := Int.toNat_of_nonneg h
  omega

/-! ## Sequences of calls from the initial state -/

theorem runCalls_append (c : Consts) (l₁ l₂ : List Call) :
    ∀ g : Globals, runCalls c g (l₁ ++ l₂) = runCalls c (runCalls c g l₁) l₂ := by
  induction l₁ with
  | nil => intro g; rfl
  | cons a l ih => intro g; simp only [List.cons_append, runCalls]; exact ih _

theorem runCalls_snoc (c : Consts) (g : Globals) (l : List Call) (call : Call) :
    runCalls c g (l ++ [call]) = (call.exec c (runCalls c g l)).globals := by
  rw [runCalls_append]; rfl

theorem runCalls_errorCount (c : Consts) (l : List Call) :
    ∀ g : Globals, (runCalls c g l).errorCount = g.errorCount := by
  induction l with
  | nil => intro g; rfl
  | cons a l ih => intro g; simp only [runCalls]; rw [ih, exec_errorCount]

theorem runCalls_qbv_offset (c : Consts) (l : List Call) :
    ∀ g : Globals, (runCalls c g l).qbv_offset = g.qbv_offset := by
  induction l with
  | nil => intro g; rfl
  | cons a l ih => intro g; simp only [runCalls]; rw [ih, exec_qbv_offset]

theorem runCalls_firstPacket (c : Consts) (g : Globals) (l : List Call) (h : l ≠ []) :
    (runCalls c g l).firstPacket = false := by
  induction l using List.reverseRecOn with
  | nil => exact absurd rfl h
  | append_singleton l a _ => rw [runCalls_snoc]; exact exec_firstPacket c _ a

/-- The cycle state after the first call. -/
theorem runCalls_next_first (c : Consts) (first : Call) :
    (runCalls c initGlobals [first]).nextCycleStartTime = ⟨first.clock.tv_sec, 275000⟩ := by
  simp only [runCalls]
  rw [exec_next_first c initGlobals first rfl]
  simp [initGlobals, CYCLE_TIME, QBV_OFFSET, MICRO_SECONDS]

/-- The nanoseconds field after the first call and `rest.length` further calls. -/
theorem runCalls_nsec (c : Consts) (first : Call) (rest : List Call) :
    (runCalls c initGlobals (first :: rest)).nextCycleStartTime.tv_nsec
      = (275000 + 250000 * (rest.length : Int)) % 1000000000 := by
  induction rest using List.reverseRecOn with
  | nil => rw [runCalls_next_first]; rfl
  | append_singleton l a ih =>
    rw [← List.cons_append, runCalls_snoc, exec_next_later _ _ _
      (runCalls_firstPacket c initGlobals (first :: l) (by simp)),
      nanoSecondFieldConversion_nsec _ _ (by rw [ih]; simp only [CYCLE_TIME]; omega), ih]
    simp only [CYCLE_TIME, List.length_append, List.length_singleton]
    push_cast
    omega

/-- The cycle state after the first call and `rest.length` further calls, without wrap. -/
theorem runCalls_next (c : Consts) (first : Call) (hs : 0 ≤ first.clock.tv_sec) :
    ∀ rest : List Call,
      first.clock.tv_sec * 1000000000 + 275000 + 250000 * (rest.length : Int) < 2 ^ 64 →
      (runCalls c initGlobals (first :: rest)).nextCycleStartTime
        = ⟨first.clock.tv_sec + (275000 + 250000 * (rest.length : Int)) / 1000000000,
           (275000 + 250000 * (rest.length : Int)) % 1000000000⟩ := by
  intro rest
  induction rest using List.reverseRecOn with
  | nil =>
    intro _
    rw [runCalls_next_first]
    simp
  | append_singleton l a ih =>
    intro hw
    simp only [List.length_append, List.length_singleton] at hw
    push_cast at hw
    have ih' := ih (by omega)
    rw [← List.cons_append, runCalls_snoc, exec_next_later _ _ _
      (runCalls_firstPacket c initGlobals (first :: l) (by simp)), ih']
    simp only [CYCLE_TIME]
    rw [nanoSecondFieldConversion_eq _ _ (by omega) (by omega) (by omega)]
    simp only [List.length_append, List.length_singleton, timespec.mk.injEq]
    push_cast
    constructor <;> omega

/-- The packed release instant after the first call and `rest.length` further calls. -/
theorem runCalls_txtime (c : Consts) (first : Call) (rest : List Call)
    (hs : 0 ≤ first.clock.tv_sec)
    (hw : first.clock.tv_sec * 1000000000 + 275000 + 250000 * (rest.length : Int) < 2 ^ 64) :
    ((runCalls c initGlobals (first :: rest)).txtime : Int)
      = first.clock.tv_sec * 1000000000 + 275000 + 250000 * (rest.length : Int) := by
  have hnext := runCalls_next c first hs rest hw
  have htx : (runCalls c initGlobals (first :: rest)).txtime
      = (toUInt64 (runCalls c initGlobals (first :: rest)).nextCycleStartTime.tv_sec
            * 1000 * 1000 * 1000
          + toUInt64 (runCalls c initGlobals (first :: rest)).nextCycleStartTime.tv_nsec)
          % 2 ^ 64 := by
    induction rest using List.reverseRecOn with
    | nil => simp only [runCalls]; exact exec_txtime c _ _
    | append_singleton l a _ =>
      rw [← List.cons_append, runCalls_snoc]; exact exec_txtime c _ _
  rw [htx, hnext]
  simp only [toUInt64]
  norm_num at hw ⊢
  omega

/-! ## The send and the error-queue check -/

theorem toInt32_of_fits (x : Int) (h₁ : -2 ^ 31 ≤ x) (h₂ : x < 2 ^ 31) : toInt32 x = x := by
  simp only [toInt32]
  norm_num at h₁ h₂ ⊢
  omega

theorem sendWithTxTime_fst (length : Int) (t : Nat) (r : Int) :
    (sendWithTxTime length t r).1 = r := by
  simp only [sendWithTxTime]
  by_cases h : r < 1 <;> simp only [h, if_true, if_false]

theorem sendWithTxTime_snd (length : Int) (t : Nat) (r : Int) :
    (sendWithTxTime length t r).2
      = if r < 1 then [Effect.sendmsg (toSizeT length) (some t), Effect.printf_sendmessage_failed]
        else [Effect.sendmsg (toSizeT length) (some t)] := by
  have h : txTimeEnable ≠ 0 := by decide
  simp only [sendWithTxTime, h, if_true, ne_eq, not_false_eq_true]
  by_cases hr : r < 1 <;> simp only [hr, if_true, if_false]

/-- The status returned by a call, as a decision list over the gate on `errorCount`, the
byte count of the send, the poll and the value of `sockErrorQueueProcess`. -/
theorem exec_status_eq (c : Consts) (g : Globals) (call : Call) :
    (call.exec c g).status
      = if g.errorCount = 0 then
          if call.env.sendmsg_ret ≠ toInt32 call.length then c.UA_STATUSCODE_BADINTERNALERROR
          else if call.env.poll_ret = 1 ∧ call.env.revents &&& POLLERR ≠ 0 then
            if (sockErrorQueueProcess c call.env.recv).1 = 0
            then c.UA_STATUSCODE_BADINTERNALERROR else c.UA_STATUSCODE_GOOD
          else c.UA_STATUSCODE_GOOD
        else c.UA_STATUSCODE_GOOD := by
  cases call with
  | udp env n =>
    simp only [Call.exec, Call.env, Call.length]
    unfold txtimecalc_udp
    by_cases hfp : g.firstPacket = true <;> by_cases he : g.errorCount = 0 <;>
      simp only [hfp, he, if_true, if_false, apply_ite Outcome.status, Bool.false_eq_true,
        sendWithTxTime_fst]
  | ethernet env n =>
    simp only [Call.exec, Call.env, Call.length]
    unfold txtimecalc_ethernet
    by_cases hfp : g.firstPacket = true <;> by_cases he : g.errorCount = 0 <;>
      simp only [hfp, he, if_true, if_false, apply_ite Outcome.status, Bool.false_eq_true,
        sendWithTxTime_fst]

/-- What a call does on the socket and on the log, as a decision list. -/
theorem exec_effects_eq (c : Consts) (g : Globals) (call : Call) :
    (call.exec c g).effects
      = if g.errorCount = 0 then
          if call.env.sendmsg_ret ≠ toInt32 call.length then
            (sendWithTxTime (toInt32 call.length) (call.exec c g).globals.txtime
              call.env.sendmsg_ret).2
          else if call.env.poll_ret = 1 ∧ call.env.revents &&& POLLERR ≠ 0 then
            (sendWithTxTime (toInt32 call.length) (call.exec c g).globals.txtime
              call.env.sendmsg_ret).2 ++ Effect.poll :: (sockErrorQueueProcess c call.env.recv).2
          else
            (sendWithTxTime (toInt32 call.length) (call.exec c g).globals.txtime
              call.env.sendmsg_ret).2 ++ [Effect.poll]
        else [] := by
  cases call with
  | udp env n =>
    simp only [Call.exec, Call.env, Call.length]
    unfold txtimecalc_udp
    by_cases hfp : g.firstPacket = true <;> by_cases he : g.errorCount = 0 <;>
      simp only [hfp, he, if_true, if_false, apply_ite Outcome.effects,
        apply_ite Outcome.globals, apply_ite Globals.txtime, Bool.false_eq_true, ite_self,
        sendWithTxTime_fst]
  | ethernet env n =>
    simp only [Call.exec, Call.env, Call.length]
    unfold txtimecalc_ethernet
    by_cases hfp : g.firstPacket = true <;> by_cases he : g.errorCount = 0 <;>
      simp only [hfp, he, if_true, if_false, apply_ite Outcome.effects,
        apply_ite Outcome.globals, apply_ite Globals.txtime, Bool.false_eq_true, ite_self,
        sendWithTxTime_fst]

/-- With `errorCount = 0` the first thing a call does on the socket is the `sendmsg`
carrying the packed release instant. -/
theorem exec_sends (c : Consts) (g : Globals) (call : Call) (h : g.errorCount = 0) :
    (call.exec c g).effects.head?
      = some (Effect.sendmsg (toSizeT (toInt32 call.length))
          (some (call.exec c g).globals.txtime)) := by
  rw [exec_effects_eq, sendWithTxTime_snd]
  simp only [h, if_true]
  split_ifs <;> rfl

/-- The cycle state written by a call does not depend on `errorCount`. -/
theorem exec_cycle_state_indep (c : Consts) (g : Globals) (call : Call) (e : Int) :
    (call.exec c g).globals.nextCycleStartTime
        = (call.exec c { g with errorCount := e }).globals.nextCycleStartTime ∧
    (call.exec c g).globals.firstPacket
        = (call.exec c { g with errorCount := e }).globals.firstPacket ∧
    (call.exec c g).globals.txtime
        = (call.exec c { g with errorCount := e }).globals.txtime := by
  have hn : (call.exec c g).globals.nextCycleStartTime
        = (call.exec c { g with errorCount := e }).globals.nextCycleStartTime := by
    by_cases hfp : g.firstPacket = true
    · rw [exec_next_first c g call hfp, exec_next_first c _ call (by simpa using hfp)]
    · have hfp2 : g.firstPacket = false := by simpa using hfp
      rw [exec_next_later c g call hfp2, exec_next_later c _ call (by simpa using hfp2)]
  refine ⟨hn, ?_, ?_⟩
  · rw [exec_firstPacket, exec_firstPacket]
  · rw [exec_txtime c g, exec_txtime c { g with errorCount := e }, hn]

/-! ## The error-queue loop and the first transmission-time record -/

/-- The loop stops at the first control record of transmission-time origin and treats it
as if it were the only record. -/
theorem sockErrorQueueProcess_loop_first (c : Consts) (e : sock_extended_err) :
    ∀ l : List sock_extended_err,
      l.find? (fun x => decide (x.ee_origin = c.SOCKET_EE_ORIGIN_TRANSMISSION_TIME)) = some e →
      e.ee_origin = c.SOCKET_EE_ORIGIN_TRANSMISSION_TIME ∧
      sockErrorQueueProcess_loop c l = sockErrorQueueProcess_loop c [e] := by
  intro l
  induction l with
  | nil => intro h; simp at h
  | cons a l ih =>
    intro h
    by_cases ha : a.ee_origin = c.SOCKET_EE_ORIGIN_TRANSMISSION_TIME
    · have hae : a = e := by simpa [List.find?, ha] using h
      subst hae
      refine ⟨ha, ?_⟩
      simp only [sockErrorQueueProcess_loop, ha, if_true]
    · have hl : l.find? (fun x => decide (x.ee_origin = c.SOCKET_EE_ORIGIN_TRANSMISSION_TIME))
          = some e := by simpa [List.find?, ha] using h
      obtain ⟨h1, h2⟩ := ih hl
      refine ⟨h1, ?_⟩
      rw [← h2]
      simp only [sockErrorQueueProcess_loop, ha, if_false]

/-- Without a control record of transmission-time origin the loop runs to the end. -/
theorem sockErrorQueueProcess_loop_none (c : Consts) :
    ∀ l : List sock_extended_err,
      l.find? (fun x => decide (x.ee_origin = c.SOCKET_EE_ORIGIN_TRANSMISSION_TIME)) = none →
      sockErrorQueueProcess_loop c l = (toInt32 c.UA_STATUSCODE_GOOD, []) := by
  intro l
  induction l with
  | nil => intro _; rfl
  | cons a l ih =>
    intro h
    by_cases ha : a.ee_origin = c.SOCKET_EE_ORIGIN_TRANSMISSION_TIME
    · simp [List.find?, ha] at h
    · have hl : l.find? (fun x => decide (x.ee_origin = c.SOCKET_EE_ORIGIN_TRANSMISSION_TIME))
          = none := by simpa [List.find?, ha] using h
      rw [← ih hl]
      simp only [sockErrorQueueProcess_loop, ha, if_false]

theorem timeStamp_eq (high low : Nat) (hh : high < 2 ^ 32) (hl : low < 2 ^ 32) :
    ((high <<< SHIFT_32BITS) % 2 ^ 64 + low) % 2 ^ 64 = high * 2 ^ 32 + low := by
  simp only [SHIFT_32BITS, Nat.shiftLeft_eq]
  norm_num at hh hl ⊢
  omega

/-! ## The claims -/

/-- C1 (the code departs from the claim): the send takes the whole payload of 10 bytes, the
poll reports `POLLERR`, and the drained notification is a benign drop (transmission-time
origin, code "deadline missed", so that `sockErrorQueueProcess` returns `0`); both entry
points nevertheless return `UA_STATUSCODE_BADINTERNALERROR`, which is not
`UA_STATUSCODE_GOOD`. -/
theorem C1_benign_drop_returns_failure :
    (sockErrorQueueProcess linuxConsts ⟨0, [⟨0, 6, 0, 2, 0, 0, 1⟩]⟩).1 = 0 ∧
    (txtimecalc_udp linuxConsts initGlobals
        ⟨⟨100, 0⟩, 10, 1, 8, ⟨0, [⟨0, 6, 0, 2, 0, 0, 1⟩]⟩⟩ 10).status
      = linuxConsts.UA_STATUSCODE_BADINTERNALERROR ∧
    (txtimecalc_ethernet linuxConsts initGlobals
        ⟨⟨100, 0⟩, 10, 1, 8, ⟨0, [⟨0, 6, 0, 2, 0, 0, 1⟩]⟩⟩ 10).status
      = linuxConsts.UA_STATUSCODE_BADINTERNALERROR ∧
    linuxConsts.UA_STATUSCODE_BADINTERNALERROR ≠ linuxConsts.UA_STATUSCODE_GOOD := by
  decide

/-- C2 (the code departs from the claim): the send takes the whole payload of 10 bytes and
the poll reports `POLLERR`; when the receive on the error queue fails, and when the
notification has transmission-time origin with an unclassified code (7), so that
`sockErrorQueueProcess` returns `-1`, both entry points return `UA_STATUSCODE_GOOD`, not
`UA_STATUSCODE_BADINTERNALERROR`. -/
theorem C2_fatal_queue_step_returns_good :
    (sockErrorQueueProcess linuxConsts ⟨-1, []⟩).1 = -1 ∧
    (sockErrorQueueProcess linuxConsts ⟨0, [⟨0, 6, 0, 7, 0, 0, 1⟩]⟩).1 = -1 ∧
    (txtimecalc_udp linuxConsts initGlobals ⟨⟨100, 0⟩, 10, 1, 8, ⟨-1, []⟩⟩ 10).status
      = linuxConsts.UA_STATUSCODE_GOOD ∧
    (txtimecalc_ethernet linuxConsts initGlobals ⟨⟨100, 0⟩, 10, 1, 8, ⟨-1, []⟩⟩ 10).status
      = linuxConsts.UA_STATUSCODE_GOOD ∧
    (txtimecalc_udp linuxConsts initGlobals
        ⟨⟨100, 0⟩, 10, 1, 8, ⟨0, [⟨0, 6, 0, 7, 0, 0, 1⟩]⟩⟩ 10).status
      = linuxConsts.UA_STATUSCODE_GOOD ∧
    (txtimecalc_ethernet linuxConsts initGlobals
        ⟨⟨100, 0⟩, 10, 1, 8, ⟨0, [⟨0, 6, 0, 7, 0, 0, 1⟩]⟩⟩ 10).status
      = linuxConsts.UA_STATUSCODE_GOOD ∧
    linuxConsts.UA_STATUSCODE_GOOD ≠ linuxConsts.UA_STATUSCODE_BADINTERNALERROR := by
  decide

/-- C3: for either entry point, a payload length that fits in a signed 32-bit integer and
any value returned by the send (the send is issued, that is `errorCount = 0`): when the
returned count differs from the payload length the call returns
`UA_STATUSCODE_BADINTERNALERROR`, and neither the poll nor the receive on the error queue
is among the things the call does. -/
theorem C3_short_send_fails_without_queue_check (c : Consts) (g : Globals) (call : Call)
    (hfit : -2 ^ 31 ≤ call.length ∧ call.length < 2 ^ 31)
    (hgate : g.errorCount = 0)
    (hshort : call.env.sendmsg_ret ≠ call.length) :
    (call.exec c g).status = c.UA_STATUSCODE_BADINTERNALERROR ∧
    Effect.poll ∉ (call.exec c g).effects ∧
    Effect.recvmsg ∉ (call.exec c g).effects := by
  rw [exec_status_eq, exec_effects_eq, sendWithTxTime_snd,
    toInt32_of_fits _ hfit.1 hfit.2]
  simp only [hgate, hshort, if_true, ne_eq, not_false_eq_true]
  refine ⟨trivial, ?_, ?_⟩ <;> split_ifs <;> simp

/-- C3, at a send that returns `-1` for a payload of 10 bytes through `txtimecalc_ethernet`. -/
theorem C3_short_send_witness :
    (-2 ^ 31 ≤ (Call.ethernet ⟨⟨100, 0⟩, -1, 1, 8, ⟨0, []⟩⟩ 10).length ∧
      (Call.ethernet ⟨⟨100, 0⟩, -1, 1, 8, ⟨0, []⟩⟩ 10).length < 2 ^ 31) ∧
    ((Call.ethernet ⟨⟨100, 0⟩, -1, 1, 8, ⟨0, []⟩⟩ 10).exec linuxConsts initGlobals).status
      = linuxConsts.UA_STATUSCODE_BADINTERNALERROR ∧
    Effect.poll ∉
      ((Call.ethernet ⟨⟨100, 0⟩, -1, 1, 8, ⟨0, []⟩⟩ 10).exec linuxConsts initGlobals).effects ∧
    Effect.recvmsg ∉
      ((Call.ethernet ⟨⟨100, 0⟩, -1, 1, 8, ⟨0, []⟩⟩ 10).exec linuxConsts initGlobals).effects :=
  ⟨by decide,
    C3_short_send_fails_without_queue_check linuxConsts initGlobals
      (Call.ethernet ⟨⟨100, 0⟩, -1, 1, 8, ⟨0, []⟩⟩ 10) (by decide) (by decide) (by decide)⟩

/-- C4: `first` is the first call from the initial (uninitialised) state and samples the
clock `(s0, n0)`; `rest` are the calls after it, so that `N = rest.length + 1` calls are
made, each through either entry point and with any outcome of the send, poll and receive.
After the first call the cycle state is `(s0, 275000)` whatever `n0` is; after the `N` calls
it is `(s0, 275000 + (N - 1) * 250000)` normalised; without 64-bit wrap the packed release
instant of the `N`-th call is `s0 * 1000000000 + 275000 + (N - 1) * 250000`, and each call
packs the instant of the call before it plus exactly `250000`, a strictly larger value. -/
theorem C4_release_instants (c : Consts) (first : Call) (rest : List Call)
    (hs : 0 ≤ first.clock.tv_sec)
    (hw : first.clock.tv_sec * 1000000000 + 275000 + 250000 * (rest.length : Int) < 2 ^ 64) :
    (runCalls c initGlobals [first]).nextCycleStartTime = ⟨first.clock.tv_sec, 275000⟩ ∧
    (runCalls c initGlobals (first :: rest)).nextCycleStartTime
      = ⟨first.clock.tv_sec + (275000 + 250000 * (rest.length : Int)) / 1000000000,
         (275000 + 250000 * (rest.length : Int)) % 1000000000⟩ ∧
    ((runCalls c initGlobals (first :: rest)).txtime : Int)
      = first.clock.tv_sec * 1000000000 + 275000 + 250000 * (rest.length : Int) ∧
    (∀ k : Nat, k < rest.length →
      (runCalls c initGlobals (first :: rest.take (k + 1))).txtime
          = (runCalls c initGlobals (first :: rest.take k)).txtime + 250000 ∧
      (runCalls c initGlobals (first :: rest.take k)).txtime
          < (runCalls c initGlobals (first :: rest.take (k + 1))).txtime) := by
  refine ⟨runCalls_next_first c first, runCalls_next c first hs rest hw,
    runCalls_txtime c first rest hs hw, ?_⟩
  · intro k hk
    have hk1 : (rest.take (k + 1)).length = k + 1 := by
      rw [List.length_take]; omega
    have hk0 : (rest.take k).length = k := by
      rw [List.length_take]; omega
    have h1 := runCalls_txtime c first (rest.take (k + 1)) hs (by rw [hk1]; push_cast; omega)
    have h0 := runCalls_txtime c first (rest.take k) hs (by rw [hk0]; omega)
    rw [hk1] at h1
    rw [hk0] at h0
    push_cast at h1
    omega

/-- C4, at three calls (UDP, Ethernet, UDP) whose first one samples the clock `(100, 123)`:
the third release instant is `100 * 1000000000 + 275000 + 2 * 250000`. -/
theorem C4_release_instants_witness :
    (0 : Int) ≤ 100 ∧
    ((runCalls linuxConsts initGlobals
        [Call.udp ⟨⟨100, 123⟩, 10, 0, 0, ⟨0, []⟩⟩ 10,
         Call.ethernet ⟨⟨100, 250456⟩, 10, 0, 0, ⟨0, []⟩⟩ 10,
         Call.udp ⟨⟨100, 500789⟩, 9, 0, 0, ⟨0, []⟩⟩ 10]).txtime : Int) = 100000775000 :=
  ⟨by decide,
    (C4_release_instants linuxConsts (Call.udp ⟨⟨100, 123⟩, 10, 0, 0, ⟨0, []⟩⟩ 10)
      [Call.ethernet ⟨⟨100, 250456⟩, 10, 0, 0, ⟨0, []⟩⟩ 10,
       Call.udp ⟨⟨100, 500789⟩, 9, 0, 0, ⟨0, []⟩⟩ 10] (by decide) (by decide)).2.2.1⟩

/-- C5: in every state reached from the initial state by at least one call of
`txtimecalc_udp` or `txtimecalc_ethernet`, in any order and with any clock sample and any
outcome of the send, poll and receive, the nanoseconds field of `nextCycleStartTime` is at
least `0` and below `1000000000`. -/
theorem C5_nanoseconds_in_range (c : Consts) (calls : List Call) (h : calls ≠ []) :
    0 ≤ (runCalls c initGlobals calls).nextCycleStartTime.tv_nsec ∧
    (runCalls c initGlobals calls).nextCycleStartTime.tv_nsec < 1000000000 := by
  cases calls with
  | nil => exact absurd rfl h
  | cons first rest =>
    rw [runCalls_nsec]
    constructor <;> omega

/-- C5, at a failed send followed by a call that drains a benign notification. -/
theorem C5_nanoseconds_in_range_witness :
    0 ≤ (runCalls linuxConsts initGlobals
          [Call.ethernet ⟨⟨100, 999999999⟩, -1, 0, 0, ⟨0, []⟩⟩ 10,
           Call.udp ⟨⟨101, 5⟩, 10, 1, 8, ⟨0, [⟨0, 6, 0, 2, 0, 0, 1⟩]⟩⟩ 10]
        ).nextCycleStartTime.tv_nsec ∧
    (runCalls linuxConsts initGlobals
          [Call.ethernet ⟨⟨100, 999999999⟩, -1, 0, 0, ⟨0, []⟩⟩ 10,
           Call.udp ⟨⟨101, 5⟩, 10, 1, 8, ⟨0, [⟨0, 6, 0, 2, 0, 0, 1⟩]⟩⟩ 10]
        ).nextCycleStartTime.tv_nsec < 1000000000 :=
  C5_nanoseconds_in_range linuxConsts
    [Call.ethernet ⟨⟨100, 999999999⟩, -1, 0, 0, ⟨0, []⟩⟩ 10,
     Call.udp ⟨⟨101, 5⟩, 10, 1, 8, ⟨0, [⟨0, 6, 0, 2, 0, 0, 1⟩]⟩⟩ 10] (by simp)

/-- C6 (the claim as stated fails): the first call samples the clock `(100, 500000000)`,
a reading with `0 ≤ n0 < 1000000000`; the release instant it hands to `sendmsg` is
`100000275000`, which is not at least the reading plus `250000 + 25000` (it lies before the
reading itself). -/
theorem C6_first_release_before_reading :
    ((0 : Int) ≤ 500000000 ∧ (500000000 : Int) < 1000000000) ∧
    (txtimecalc_udp linuxConsts initGlobals
        ⟨⟨100, 500000000⟩, 10, 0, 0, ⟨0, []⟩⟩ 10).effects.head?
      = some (Effect.sendmsg 10 (some 100000275000)) ∧
    ¬ (((txtimecalc_udp linuxConsts initGlobals
          ⟨⟨100, 500000000⟩, 10, 0, 0, ⟨0, []⟩⟩ 10).globals.txtime : Int)
        ≥ 100 * 1000000000 + 500000000 + 250000 + 25000) ∧
    ¬ (((txtimecalc_ethernet linuxConsts initGlobals
          ⟨⟨100, 500000000⟩, 10, 0, 0, ⟨0, []⟩⟩ 10).globals.txtime : Int)
        ≥ 100 * 1000000000 + 500000000 + 250000 + 25000) := by
  decide

/-- C6 (amended): the first call, through either entry point, samples the clock `(s0, n0)`
with `0 ≤ n0 < 1000000000` (and `s0 ≥ 0`, no 64-bit wrap).  The release instant it hands to
`sendmsg` is `s0 * 1000000000 + 275000`: one cycle plus guard band after the start of the
sampled second `s0`.  It is at least the reading plus `250000 + 25000` exactly when
`n0 = 0`. -/
theorem C6_first_release_instant (c : Consts) (call : Call)
    (hs : 0 ≤ call.clock.tv_sec)
    (hw : call.clock.tv_sec * 1000000000 + 275000 < 2 ^ 64)
    (hn : 0 ≤ call.clock.tv_nsec ∧ call.clock.tv_nsec < 1000000000) :
    (call.exec c initGlobals).effects.head?
      = some (Effect.sendmsg (toSizeT (toInt32 call.length))
          (some (call.exec c initGlobals).globals.txtime)) ∧
    ((call.exec c initGlobals).globals.txtime : Int)
      = call.clock.tv_sec * 1000000000 + 275000 ∧
    (((call.exec c initGlobals).globals.txtime : Int)
        ≥ call.clock.tv_sec * 1000000000 + call.clock.tv_nsec + 250000 + 25000
      ↔ call.clock.tv_nsec = 0) := by
  have htx : ((call.exec c initGlobals).globals.txtime : Int)
      = call.clock.tv_sec * 1000000000 + 275000 := by
    have h := runCalls_txtime c call [] hs (by simpa using hw)
    simpa [runCalls] using h
  refine ⟨exec_sends c initGlobals call rfl, htx, ?_⟩
  rw [htx]
  omega

/-- C6 (amended), at the clock reading `(100, 0)`. -/
theorem C6_first_release_instant_witness :
    ((0 : Int) ≤ 100 ∧ (0 : Int) ≤ 0 ∧ (0 : Int) < 1000000000) ∧
    (((Call.udp ⟨⟨100, 0⟩, 10, 0, 0, ⟨0, []⟩⟩ 10).exec linuxConsts initGlobals).globals.txtime
        : Int) = 100000275000 :=
  ⟨by decide,
    (C6_first_release_instant linuxConsts (Call.udp ⟨⟨100, 0⟩, 10, 0, 0, ⟨0, []⟩⟩ 10)
      (by decide) (by decide) (by decide)).2.1⟩

/-- C7: the receive on the error queue succeeds and the first control record of
transmission-time origin has code "invalid scheduling parameter" or "deadline missed" and
32-bit fields `ee_data` (high) and `ee_info` (low).  Then `sockErrorQueueProcess` returns
`0` and logs, after the receive, exactly one message, whose timestamp is
`ee_data * 2 ^ 32 + ee_info`; the message is the one for invalid parameters when the code
is that one and the one for the missed deadline otherwise. -/
theorem C7_benign_notification_timestamp (c : Consts) (r : RecvMsg) (e : sock_extended_err)
    (hrecv : r.ret ≠ FAILURE_EXIT)
    (hfirst : r.control.find?
        (fun x => decide (x.ee_origin = c.SOCKET_EE_ORIGIN_TRANSMISSION_TIME)) = some e)
    (hcode : e.ee_code = c.SOCKET_EE_CODE_TRANSMISSION_TIME_MISSED ∨
        e.ee_code = c.SOCKET_EE_CODE_TRANSMISSION_TIME_INVALID_PARAM)
    (hhigh : e.ee_data < 2 ^ 32) (hlow : e.ee_info < 2 ^ 32) :
    (sockErrorQueueProcess c r).1 = 0 ∧
    (sockErrorQueueProcess c r).2
      = [Effect.recvmsg,
         if e.ee_code = c.SOCKET_EE_CODE_TRANSMISSION_TIME_INVALID_PARAM
         then Effect.log_info_invalid_params (e.ee_data * 2 ^ 32 + e.ee_info)
         else Effect.log_info_missed_deadline (e.ee_data * 2 ^ 32 + e.ee_info)] := by
  obtain ⟨horigin, hloop⟩ := sockErrorQueueProcess_loop_first c e r.control hfirst
  simp only [sockErrorQueueProcess, hrecv, if_false, hloop, sockErrorQueueProcess_loop,
    horigin, if_true, timeStamp_eq _ _ hhigh hlow]
  by_cases hi : e.ee_code = c.SOCKET_EE_CODE_TRANSMISSION_TIME_INVALID_PARAM
  · simp only [hi, if_true, and_self]
  · have hm : e.ee_code = c.SOCKET_EE_CODE_TRANSMISSION_TIME_MISSED := by
      rcases hcode with h | h
      · exact h
      · exact absurd h hi
    simp only [if_neg hi, if_pos hm, and_self]

/-- C7, at a notification of transmission-time origin with code "deadline missed",
`high = 1` and `low = 0`: the value returned is `0` and the logged timestamp is
`4294967296`. -/
theorem C7_benign_notification_timestamp_witness :
    ((1 : Nat) < 2 ^ 32 ∧ (0 : Nat) < 2 ^ 32) ∧
    (sockErrorQueueProcess linuxConsts ⟨0, [⟨0, 6, 0, 2, 0, 0, 1⟩]⟩).1 = 0 ∧
    (sockErrorQueueProcess linuxConsts ⟨0, [⟨0, 6, 0, 2, 0, 0, 1⟩]⟩).2
      = [Effect.recvmsg, Effect.log_info_missed_deadline 4294967296] :=
  ⟨by decide,
    C7_benign_notification_timestamp linuxConsts ⟨0, [⟨0, 6, 0, 2, 0, 0, 1⟩]⟩
      ⟨0, 6, 0, 2, 0, 0, 1⟩ (by decide) (by decide) (by decide) (by decide) (by decide)⟩

/-- C8 (the claim as stated fails): a successfully received notification whose only record
has another origin (2) and an unrecognised code (99), and a received message without any
control record, both make `sockErrorQueueProcess` return `0`, not `-1`. -/
theorem C8_other_origin_or_no_record_returns_good :
    ((0 : Int) ≠ FAILURE_EXIT ∧
      (99 : Nat) ≠ linuxConsts.SOCKET_EE_CODE_TRANSMISSION_TIME_INVALID_PARAM ∧
      (99 : Nat) ≠ linuxConsts.SOCKET_EE_CODE_TRANSMISSION_TIME_MISSED) ∧
    (sockErrorQueueProcess linuxConsts ⟨0, [⟨0, 2, 0, 99, 0, 0, 0⟩]⟩).1 = 0 ∧
    (sockErrorQueueProcess linuxConsts ⟨0, [⟨0, 2, 0, 99, 0, 0, 0⟩]⟩).1 ≠ -1 ∧
    (sockErrorQueueProcess linuxConsts ⟨0, []⟩).1 = 0 ∧
    (sockErrorQueueProcess linuxConsts ⟨0, []⟩).1 ≠ -1 := by
  decide

/-- C8 (amended): the receive on the error queue succeeds.  When the first control record
of transmission-time origin has a code other than the two recognised ones,
`sockErrorQueueProcess` returns `-1`.  When the message has no control record of
transmission-time origin (records of other origins whatever their code, or no record at
all), it returns `UA_STATUSCODE_GOOD`. -/
theorem C8_unclassified_code_is_fatal (c : Consts) (r : RecvMsg)
    (hrecv : r.ret ≠ FAILURE_EXIT) :
    (∀ e : sock_extended_err,
      r.control.find?
        (fun x => decide (x.ee_origin = c.SOCKET_EE_ORIGIN_TRANSMISSION_TIME)) = some e →
      e.ee_code ≠ c.SOCKET_EE_CODE_TRANSMISSION_TIME_INVALID_PARAM →
      e.ee_code ≠ c.SOCKET_EE_CODE_TRANSMISSION_TIME_MISSED →
      (sockErrorQueueProcess c r).1 = -1) ∧
    (r.control.find?
        (fun x => decide (x.ee_origin = c.SOCKET_EE_ORIGIN_TRANSMISSION_TIME)) = none →
      (sockErrorQueueProcess c r).1 = toInt32 c.UA_STATUSCODE_GOOD) := by
  constructor
  · intro e hfirst hi hm
    obtain ⟨horigin, hloop⟩ := sockErrorQueueProcess_loop_first c e r.control hfirst
    simp only [sockErrorQueueProcess, hrecv, if_false, hloop, sockErrorQueueProcess_loop,
      horigin, if_true, hi, hm]
  · intro hnone
    simp only [sockErrorQueueProcess, hrecv, if_false,
      sockErrorQueueProcess_loop_none c r.control hnone]

/-- C8 (amended), at a message whose second record is the first one of transmission-time
origin and has the unrecognised code 7. -/
theorem C8_unclassified_code_is_fatal_witness :
    (0 : Int) ≠ FAILURE_EXIT ∧
    (sockErrorQueueProcess linuxConsts
        ⟨0, [⟨0, 2, 0, 99, 0, 0, 0⟩, ⟨0, 6, 0, 7, 0, 0, 1⟩]⟩).1 = -1 :=
  ⟨by decide,
    (C8_unclassified_code_is_fatal linuxConsts
      ⟨0, [⟨0, 2, 0, 99, 0, 0, 0⟩, ⟨0, 6, 0, 7, 0, 0, 1⟩]⟩ (by decide)).1
      ⟨0, 6, 0, 7, 0, 0, 1⟩ (by decide) (by decide) (by decide)⟩

/-- C9 (the claim as stated fails): the seconds field is a signed 64-bit `time_t`.  At
`s = 9223372036854775807`, the largest seconds value, and `n = 1000000000 ≥ 0` the loop
leaves the seconds at `-9223372036854775808`, not at `s + n / 1000000000`, and the total
`s * 1000000000 + n` is not kept. -/
theorem C9_seconds_wrap_at_largest_value :
    (0 : Int) ≤ 1000000000 ∧
    nanoSecondFieldConversion ⟨9223372036854775807, 1000000000⟩
      = ⟨-9223372036854775808, 0⟩ ∧
    nanoSecondFieldConversion ⟨9223372036854775807, 1000000000⟩
      ≠ ⟨9223372036854775807 + 1000000000 / 1000000000, 1000000000 % 1000000000⟩ ∧
    (nanoSecondFieldConversion ⟨9223372036854775807, 1000000000⟩).tv_sec * 1000000000
        + (nanoSecondFieldConversion ⟨9223372036854775807, 1000000000⟩).tv_nsec
      ≠ 9223372036854775807 * 1000000000 + 1000000000 := by
  have h : nanoSecondFieldConversion ⟨9223372036854775807, 1000000000⟩
      = ⟨-9223372036854775808, 0⟩ := by
    rw [nanoSecondFieldConversion_step _ _ (by decide)]
    have h1 : toInt64 (9223372036854775807 + 1) = -9223372036854775808 := by decide
    have h2 : (1000000000 : Int) - 1000000000 = 0 := by decide
    rw [h1, h2, nanoSecondFieldConversion_small _ _ (by decide)]
  refine ⟨by decide, h, ?_, ?_⟩
  · rw [h]
    decide
  · rw [h]
    decide

/-- C9 (amended): `nanoSecondFieldConversion` is a total function (its loop ends on every
input), and for every seconds value `s` of a 64-bit `time_t` and nanoseconds value `n ≥ 0`
for which `s + n / 1000000000` is still at most `2 ^ 63 - 1 = 9223372036854775807` it
returns `(s + n / 1000000000, n % 1000000000)`: the total `s * 1000000000 + n` is kept and
the nanoseconds are in `[0, 1000000000)`.  The nanoseconds are `n % 1000000000` for every
`s`.  With `2500000000` added to `900000000` the carry is 3 and `400000000` remain; with
`2500000000` added to that again the carry is 2 and `900000000` remain. -/
theorem C9_nanoSecondFieldConversion_quot_rem (s n : Int) (h : 0 ≤ n)
    (hmin : -9223372036854775808 ≤ s)
    (hmax : s + n / 1000000000 ≤ 9223372036854775807) :
    nanoSecondFieldConversion ⟨s, n⟩ = ⟨s + n / 1000000000, n % 1000000000⟩ ∧
    (nanoSecondFieldConversion ⟨s, n⟩).tv_sec * 1000000000
        + (nanoSecondFieldConversion ⟨s, n⟩).tv_nsec = s * 1000000000 + n ∧
    0 ≤ (nanoSecondFieldConversion ⟨s, n⟩).tv_nsec ∧
    (nanoSecondFieldConversion ⟨s, n⟩).tv_nsec < 1000000000 ∧
    (∀ s₀ : Int, (nanoSecondFieldConversion ⟨s₀, n⟩).tv_nsec = n % 1000000000) ∧
    (s + 5 ≤ 9223372036854775807 →
      nanoSecondFieldConversion ⟨s, 900000000 + 2500000000⟩ = ⟨s + 3, 400000000⟩ ∧
      nanoSecondFieldConversion ⟨s + 3, 400000000 + 2500000000⟩
        = ⟨s + 3 + 2, 900000000⟩) := by
  refine ⟨nanoSecondFieldConversion_eq s n h hmin hmax, ?_, ?_, ?_,
    fun s₀ => nanoSecondFieldConversion_nsec s₀ n h, ?_⟩
  · rw [nanoSecondFieldConversion_eq s n h hmin hmax]
    simp only
    omega
  · rw [nanoSecondFieldConversion_eq s n h hmin hmax]
    simp only
    omega
  · rw [nanoSecondFieldConversion_eq s n h hmin hmax]
    simp only
    omega
  · intro h5
    constructor
    · rw [nanoSecondFieldConversion_eq s _ (by norm_num) hmin (by norm_num; omega)]
      norm_num
    · rw [nanoSecondFieldConversion_eq (s + 3) _ (by norm_num) (by omega)
        (by norm_num; omega)]
      norm_num

/-- C9 (amended), at `7` seconds and `3400000000` nanoseconds. -/
theorem C9_nanoSecondFieldConversion_witness :
    ((0 : Int) ≤ 3400000000 ∧ (-9223372036854775808 : Int) ≤ 7 ∧
      (7 : Int) + 3400000000 / 1000000000 ≤ 9223372036854775807) ∧
    nanoSecondFieldConversion ⟨7, 3400000000⟩ = ⟨10, 400000000⟩ :=
  ⟨by decide,
    (C9_nanoSecondFieldConversion_quot_rem 7 3400000000 (by decide) (by decide)
      (by decide)).1⟩

/-- C10: in a state whose `errorCount` is not zero a call of either entry point does
nothing on the socket (no send, no poll, no receive), returns `UA_STATUSCODE_GOOD`, and
writes `nextCycleStartTime`, `firstPacket` and `txtime` exactly as the same call does from
the state with `errorCount = 0`.  No call changes `errorCount`; so in every state reached
from the initial one `errorCount` is `0` and a call begins with the `sendmsg`. -/
theorem C10_errorCount_gate (c : Consts) (g : Globals) (call : Call)
    (h : g.errorCount ≠ 0) :
    (call.exec c g).effects = [] ∧
    (call.exec c g).status = c.UA_STATUSCODE_GOOD ∧
    (call.exec c g).globals.nextCycleStartTime
        = (call.exec c { g with errorCount := 0 }).globals.nextCycleStartTime ∧
    (call.exec c g).globals.firstPacket
        = (call.exec c { g with errorCount := 0 }).globals.firstPacket ∧
    (call.exec c g).globals.txtime
        = (call.exec c { g with errorCount := 0 }).globals.txtime ∧
    (∀ (g₀ : Globals) (call₀ : Call), (call₀.exec c g₀).globals.errorCount = g₀.errorCount) ∧
    (∀ (calls : List Call) (next : Call),
      (runCalls c initGlobals calls).errorCount = 0 ∧
      (next.exec c (runCalls c initGlobals calls)).effects.head?
        = some (Effect.sendmsg (toSizeT (toInt32 next.length))
            (some (next.exec c (runCalls c initGlobals calls)).globals.txtime))) := by
  have hind := exec_cycle_state_indep c g call 0
  refine ⟨?_, ?_, hind.1, hind.2.1, hind.2.2, fun g₀ call₀ => exec_errorCount c g₀ call₀, ?_⟩
  · rw [exec_effects_eq]
    simp only [h, if_false]
  · rw [exec_status_eq]
    simp only [h, if_false]
  · intro calls next
    have h0 : (runCalls c initGlobals calls).errorCount = 0 := by
      rw [runCalls_errorCount]; rfl
    exact ⟨h0, exec_sends c _ next h0⟩

/-- C10, at the initial state with `errorCount` set to `1`: the call does nothing on the
socket, returns `UA_STATUSCODE_GOOD` and packs the release instant `100000275000`. -/
theorem C10_errorCount_gate_witness :
    ({ initGlobals with errorCount := 1 } : Globals).errorCount ≠ 0 ∧
    ((Call.udp ⟨⟨100, 5⟩, 10, 1, 8, ⟨0, []⟩⟩ 10).exec linuxConsts
        { initGlobals with errorCount := 1 }).effects = [] ∧
    ((Call.udp ⟨⟨100, 5⟩, 10, 1, 8, ⟨0, []⟩⟩ 10).exec linuxConsts
        { initGlobals with errorCount := 1 }).status = linuxConsts.UA_STATUSCODE_GOOD :=
  ⟨by decide,
    (C10_errorCount_gate linuxConsts { initGlobals with errorCount := 1 }
      (Call.udp ⟨⟨100, 5⟩, 10, 1, 8, ⟨0, []⟩⟩ 10) (by decide)).1,
    (C10_errorCount_gate linuxConsts { initGlobals with errorCount := 1 }
      (Call.udp ⟨⟨100, 5⟩, 10, 1, 8, ⟨0, []⟩⟩ 10) (by decide)).2.1⟩

end RealtimeEtf
